import Mathlib

/-!
Verification of the keyword-relevance scoring and quote-retrieval core of the
ua-parking-platform repository.

The embedding covers:
* the evidence endpoint (`src/unnamed/part_003`): `loadThemes` (mtime-cached
  loader), the inline scorer of `searchQuotes`, and its rank/filter/truncate;
* the chat endpoint (`src/src/app/api/chat/route.ts`): `loadThemesData`,
  `scoreDocument`, `findRelevantDocs`, `buildContext` and the `POST` handler.

Modelling conventions, shared by every definition below:

* Scores.  Every score the JavaScript code produces is a non-negative multiple
  of 0.5 (the increments are 10, 1 and 0.5, and only additions occur).  Scores
  are therefore represented in half-points as a `Nat`: one JS point is 2 units,
  so the substring bonus 10 becomes 20, a term match 1 becomes 2, and the
  word-boundary bonus 0.5 becomes 1.  The map `q ↦ 2*q` is an order embedding
  that preserves 0, so every comparison (`score > 0`, sort order, ties,
  equality of scores) is preserved exactly.  This keeps all definitions
  kernel-computable, which machine-checked witnesses rely on.
* Strings.  Texts are Lean `String`s, processed as their `List Char` data.
  `toLowerCase` is modelled by `Char.toLower` (ASCII case folding, as in JS for
  the ASCII range).  `String.prototype.includes` is modelled by `isSubstr`.
  `split(/\s+/)` followed by the `length > 2` filter is modelled by `wsTokens`
  followed by the same filter: JS split can additionally emit empty tokens
  (one before a leading separator run, one for the empty string), and those
  are removed by the length filter in both the source and the model.
* Regular expressions.  The chat scorer builds
  `new RegExp("\\b" + word + "\\b", "gi")` from each raw query term.  For a
  term free of regex metacharacters the construction succeeds and
  `match` returns the non-overlapping left-to-right occurrences of the literal
  word, bounded by `\b` (a transition between a `[A-Za-z0-9_]` character and a
  non-word character or the text edge); `bmCountAux` implements exactly that
  scan.  A term that contains a metacharacter is modelled as a failed
  construction (`Except.error`): real JS rejects some such terms with a
  `SyntaxError` (e.g. an unmatched parenthesis, the case used by the
  theorems below) and changes the match semantics of others, so theorems about
  the error case are only ever instantiated at terms, such as `"((("`, on which
  the construction genuinely throws.  All universally quantified results about
  successful scoring carry the metacharacter-free hypothesis `litQuery`.
* Sorting.  `Array.prototype.sort` with the comparator
  `(a, b) => b.score - a.score` is, per the ECMAScript specification, a stable
  sort whose output is descending in `score`; stability plus sortedness
  determines the output uniquely, so any stable implementation is an exact
  model.  `sortByScoreDesc` is a structural stable insertion sort; its
  sortedness, permutation and stability lemmas are proved below.
* Fallible operations (file system access, `JSON.parse`, `RegExp`
  construction, the generative-AI call) return `Except`; the backing
  `themes.json` file is abstracted as a `FileState` (missing, or present with
  a modification time and either unparsable or parsed content), and module
  level mutable cache variables are threaded explicitly as state.
-/

deriving instance DecidableEq for Except

/-- JS word character (`\w` = `[A-Za-z0-9_]`), used by the `\b` assertion. -/
def jsWordChar (c : Char) : Bool := c.isAlphanum || c == '_'

/-- Word-character test on an optional character; the text edge (`none`) counts
as a non-word position, as in JS `\b`. -/
def isWordCharOpt : Option Char → Bool
  | none => false
  | some c => jsWordChar c

/-- The JS `\b` assertion between two adjacent positions: exactly one side is a
word character. -/
def wordBoundary (a b : Option Char) : Bool := isWordCharOpt a != isWordCharOpt b

/-- JS `\s` whitespace (the characters relevant to this corpus). -/
def jsWhitespace (c : Char) : Bool :=
  c == ' ' || c == '\t' || c == '\n' || c == '\r' || c == '\x0b' || c == '\x0c'

/-- Accumulator-based tokenizer: maximal runs of non-whitespace characters.
`cur` holds the current run in reverse. -/
def wsTokensAux : List Char → List Char → List (List Char)
  | cur, [] => if cur.isEmpty then [] else [cur.reverse]
  | cur, c :: rest =>
    if jsWhitespace c then
      if cur.isEmpty then wsTokensAux [] rest else cur.reverse :: wsTokensAux [] rest
    else wsTokensAux (c :: cur) rest

/-- The non-empty tokens of `split(/\s+/)`: maximal whitespace-free runs. -/
def wsTokens (s : List Char) : List (List Char) := wsTokensAux [] s

/-- JS `hay.includes(needle)`: `needle` occurs contiguously in `hay` (always
true for the empty needle, as in JS). -/
def isSubstr : List Char → List Char → Bool
  | needle, [] => needle.isEmpty
  | needle, c :: rest => needle.isPrefixOf (c :: rest) || isSubstr needle rest

/-- JS `toLowerCase` on the ASCII range. -/
def lowerL (s : List Char) : List Char := s.map Char.toLower

/-- Characters with special meaning in a JS regular expression pattern. -/
def regexMetaChar (c : Char) : Bool :=
  c == '\\' || c == '^' || c == '$' || c == '.' || c == '|' || c == '?' ||
  c == '*' || c == '+' || c == '(' || c == ')' || c == '[' || c == ']' ||
  c == Char.ofNat 123 || c == Char.ofNat 125

/-- A term that is a plain literal inside a regex pattern (no metacharacters),
so that `new RegExp("\\b" + term + "\\b")` compiles and matches the literal
term at word boundaries. -/
def literalTerm (w : List Char) : Bool := w.all fun c => !regexMetaChar c

/-- Greedy left-to-right non-overlapping scan for `\b`-delimited occurrences of
the word `w`, the behavior of `text.match(new RegExp("\\b"+w+"\\b", "g"))`.
`skip` counts characters of a just-matched occurrence still to be consumed,
and `prev` is the character before the current position (`none` at the start),
so that the `\b` test has both sides available. -/
def bmCountAux (w : List Char) : Nat → Option Char → List Char → Nat
  | _, _, [] => 0
  | Nat.succ k, _, c :: rest => bmCountAux w k (some c) rest
  | 0, prev, c :: rest =>
    if !w.isEmpty && w.isPrefixOf (c :: rest) && wordBoundary prev (some c)
        && wordBoundary w.getLast? (((c :: rest).drop w.length).head?) then
      1 + bmCountAux w (w.length - 1) (some c) rest
    else bmCountAux w 0 (some c) rest

/-- Number of word-boundary matches of `w` in `hay` (both already lowercased by
the callers), i.e. `hay.match(/\bw\b/g)?.length ?? 0`. -/
def bmCount (hay w : List Char) : Nat := bmCountAux w 0 none hay

/-- Shared term extraction of both scorers:
`query.toLowerCase().split(/\s+/).filter(t => t.length > 2)`. -/
def queryTerms (query : String) : List (List Char) :=
  (wsTokens (lowerL query.data)).filter fun t => 2 < t.length

/-- The scorer inlined in the evidence endpoint's `searchQuotes`
(src/unnamed/part_003 lines 95-108): +10 points (20 half-points) when the full
lowercased query occurs as a substring of the lowercased quote, and +1 point
(2 half-points) for each surviving query term that occurs as a substring.
This scorer has no word-boundary component and builds no regex, so it cannot
fail. -/
def searchScore (quote query : String) : Nat :=
  let quoteLower := lowerL quote.data
  let base : Nat := if isSubstr (lowerL query.data) quoteLower then 20 else 0
  (queryTerms query).foldl
    (fun score term => if isSubstr term quoteLower then score + 2 else score) base

/-- The chat endpoint's `scoreDocument` (route.ts lines 68-84): for each
surviving query term that occurs as a substring of the lowercased text, add
1 point (2 half-points) plus 0.5 points (1 half-point) per word-boundary match
counted through `new RegExp("\\b"+word+"\\b", "gi")`.  There is no full-query
substring bonus.  Following the regex modelling convention above, a term
containing a metacharacter makes the construction of the regex fail, which in
the source is a thrown `SyntaxError`; the failure can only occur after the
substring test succeeds, exactly as in the source. -/
def scoreDocument (text query : String) : Except Unit Nat :=
  let textLower := lowerL text.data
  (queryTerms query).foldlM
    (fun score word =>
      if isSubstr word textLower then
        if literalTerm word then Except.ok (score + 2 + bmCount textLower word)
        else Except.error ()
      else Except.ok score)
    0

/-- The value `scoreDocument` computes whenever it does not fail. -/
def scoreDocumentVal (text query : String) : Nat :=
  let textLower := lowerL text.data
  (queryTerms query).foldl
    (fun score word =>
      if isSubstr word textLower then score + 2 + bmCount textLower word else score)
    0

/-- Every surviving term of the query is metacharacter-free, so `scoreDocument`
cannot fail on any text. -/
def litQuery (query : String) : Bool := (queryTerms query).all literalTerm

/-- Follows the spec's words (spec.md section 4.2), for comparison with the two
scorers of the source: base bonus of 10 points (20 half-points) when the full
lowercased query is a substring of the text, and for each surviving term that
is a substring, 1 point plus 0.5 points per word-boundary occurrence
(2 + `bmCount` half-points). -/
def specClaimedScore (text query : String) : Nat :=
  let textLower := lowerL text.data
  (if isSubstr (lowerL query.data) textLower then 20 else 0) +
    ((queryTerms query).map
      (fun t => if isSubstr t textLower then 2 + bmCount textLower t else 0)).sum

/-- Theme segment breakdowns.  JS `Record` objects are modelled as ordered
association lists (string-keyed JS objects enumerate keys in insertion order,
which `Object.keys(...)[0]` depends on).  The evidence endpoint's interface
additionally declares `skip_rate`; the chat endpoint's interface omits it, and
neither endpoint's logic reads it, so the union of the two shapes is used. -/
structure Segments where
  by_arrival_time : List (String × Nat)
  by_mode : List (String × Nat)
  skip_rate : Option ℚ
deriving DecidableEq

/-- A theme as stored in `themes.json`. -/
structure Theme where
  id : Int
  label : String
  count : Nat
  pct : ℚ
  quotes : List String
  segments : Segments
deriving DecidableEq

/-- Artifact metadata; the union of the fields declared by the two endpoints
(the chat endpoint's interface omits `generated_at` and `input_file`). -/
structure Metadata where
  generated_at : String
  input_file : String
  total_texts : Nat
  n_clusters : Nat
deriving DecidableEq

/-- The parsed `themes.json` artifact. -/
structure ThemesData where
  metadata : Metadata
  themes : List Theme
deriving DecidableEq

/-- One entry of the evidence search response. -/
structure SearchResult where
  quote : String
  theme : String
  themeId : Int
  score : Nat
deriving DecidableEq

/-- The candidate list built by the loop of `searchQuotes` (part_003 lines
93-119): every quote of every theme in order, scored, kept only when the score
is strictly positive. -/
def searchCandidates (themes : List Theme) (query : String) : List SearchResult :=
  themes.flatMap fun theme =>
    theme.quotes.filterMap fun quote =>
      let score := searchScore quote query
      if 0 < score then some ⟨quote, theme.label, theme.id, score⟩ else none

/-- Structural stable insertion sort, descending on `key`.  `insertDesc`
places `x` before the first element whose key is not larger, so an element
keeps its position relative to equal-key elements that occur later in the
input; this is the unique output of the (stable, by the ECMAScript spec)
`Array.prototype.sort` under the comparator `(a, b) => b.score - a.score`. -/
def insertDesc {α : Type} (key : α → Nat) (x : α) : List α → List α
  | [] => [x]
  | y :: ys => if key x < key y then y :: insertDesc key x ys else x :: y :: ys

/-- Stable descending sort by `key`; see `insertDesc`. -/
def sortByScoreDesc {α : Type} (key : α → Nat) : List α → List α
  | [] => []
  | x :: xs => insertDesc key x (sortByScoreDesc key xs)

/-- The ranked (sorted, pre-truncation) search result sequence. -/
def searchRanked (themes : List Theme) (query : String) : List SearchResult :=
  sortByScoreDesc (fun r => r.score) (searchCandidates themes query)

/-- The evidence endpoint's `searchQuotes` (part_003 lines 77-125): build the
positive-score candidates, sort descending by score, return the first 20. -/
def searchQuotes (themes : List Theme) (query : String) : List SearchResult :=
  (searchRanked themes query).take 20

/-- A retrieved document of the chat endpoint (its `Document` plus the
transient `score`). -/
structure ChatDoc where
  id : String
  text : String
  source : String
  arrival_time : String
  mode : String
  score : Nat
deriving DecidableEq

/-- JS `Object.keys(m)[0] || 'Unknown'`: the first key in insertion order,
with both a missing first key (empty object) and an empty-string first key
(falsy in JS) replaced by `"Unknown"`. -/
def firstKeyOr : List (String × Nat) → String
  | [] => "Unknown"
  | (k, _) :: _ => if k = "" then "Unknown" else k

/-- One iteration of the candidate loop of `findRelevantDocs` (route.ts lines
95-111): score the quote, score the theme label, double the label score, and
record the document. -/
def chatQuoteDoc (query : String) (theme : Theme) (i : Nat) (quote : String) :
    Except Unit ChatDoc := do
  let score ← scoreDocument quote query
  let labelScore ← scoreDocument theme.label query
  Except.ok
    { id := toString theme.id ++ "_" ++ toString i
      text := quote
      source := theme.label
      arrival_time := firstKeyOr theme.segments.by_arrival_time
      mode := firstKeyOr theme.segments.by_mode
      score := score + labelScore * 2 }

/-- The document `chatQuoteDoc` produces whenever scoring does not fail. -/
def chatQuoteDocVal (query : String) (theme : Theme) (i : Nat) (quote : String) :
    ChatDoc :=
  { id := toString theme.id ++ "_" ++ toString i
    text := quote
    source := theme.label
    arrival_time := firstKeyOr theme.segments.by_arrival_time
    mode := firstKeyOr theme.segments.by_mode
    score := scoreDocumentVal quote query + scoreDocumentVal theme.label query * 2 }

/-- The full candidate list of `findRelevantDocs`: all quotes of all themes in
order, with indices, scored. -/
def chatCandidates (query : String) (d : ThemesData) : Except Unit (List ChatDoc) := do
  let perTheme ← d.themes.mapM fun theme =>
    theme.quotes.enum.mapM fun p => chatQuoteDoc query theme p.1 p.2
  Except.ok perTheme.flatten

/-- The candidate list when no scoring call fails. -/
def chatCandidatesVal (query : String) (d : ThemesData) : List ChatDoc :=
  d.themes.flatMap fun theme =>
    theme.quotes.enum.map fun p => chatQuoteDocVal query theme p.1 p.2

/-- The ranked (sorted, pre-truncation) chat candidate sequence. -/
def chatRankedVal (query : String) (d : ThemesData) : List ChatDoc :=
  sortByScoreDesc (fun c => c.score) (chatCandidatesVal query d)

/-- The chat endpoint's `findRelevantDocs` (route.ts lines 87-117): score every
quote (no score filter), sort descending, return the first `topK`. -/
def findRelevantDocs (query : String) (d : ThemesData) (topK : Nat) :
    Except Unit (List ChatDoc) := do
  let docs ← chatCandidates query d
  Except.ok ((sortByScoreDesc (fun c => c.score) docs).take topK)

/-- The result of `findRelevantDocs` when no scoring call fails. -/
def findRelevantDocsVal (query : String) (d : ThemesData) (topK : Nat) : List ChatDoc :=
  (chatRankedVal query d).take topK

/-- Total number of quotes across all themes of a snapshot. -/
def totalQuotes (d : ThemesData) : Nat := (d.themes.map fun t => t.quotes.length).sum

/-- Parse outcome of the backing file's bytes. -/
inductive FileContent where
  | corrupt
  | valid (d : ThemesData)
deriving DecidableEq

/-- State of the backing `artifacts/themes.json` at the time of a load:
missing, or present with a modification time (`stat.mtimeMs`) and content. -/
inductive FileState where
  | missing
  | present (mtime : Int) (content : FileContent)
deriving DecidableEq

/-- The mock data the evidence loader falls back to (part_003 lines 64-74):
zero themes, metadata stamped with the current time. -/
def emptyThemesData (now : String) : ThemesData :=
  { metadata :=
      { generated_at := now, input_file := "mock", total_texts := 0, n_clusters := 0 }
    themes := [] }

/-- The evidence endpoint's module-level cache variables `cachedThemes` and
`themesLastModified` (part_003 lines 42-43). -/
structure EvCache where
  cachedThemes : Option ThemesData
  themesLastModified : Int
deriving DecidableEq

/-- The evidence endpoint's `loadThemes` (part_003 lines 45-75) as a function
of the explicit cache state and file state; returns the produced data and the
new cache state.  A missing file makes `statSync` throw, and an unparsable
file makes `JSON.parse` throw; both are caught and produce the mock data,
leaving the cache variables untouched (the source assigns them only after a
successful parse). -/
def loadThemes (st : EvCache) (fs : FileState) (now : String) :
    ThemesData × EvCache :=
  match fs with
  | .missing => (emptyThemesData now, st)
  | .present mtime content =>
    match st.cachedThemes with
    | some d =>
      if mtime = st.themesLastModified then (d, st)
      else
        match content with
        | .corrupt => (emptyThemesData now, st)
        | .valid d2 => (d2, ⟨some d2, mtime⟩)
    | none =>
      match content with
      | .corrupt => (emptyThemesData now, st)
      | .valid d2 => (d2, ⟨some d2, mtime⟩)

/-- The two failure modes of the chat endpoint's loader. -/
inductive LoadError where
  | notFound
  | parseError
deriving DecidableEq

/-- The chat endpoint's `loadThemesData` (route.ts lines 52-65) over its
module-level `themesData` cache: once the cache is populated it is returned
unconditionally (no stat, no mtime comparison); otherwise a missing file
raises `Error('Themes data not found...')` and an unparsable file raises the
`JSON.parse` error, neither of which is caught inside the loader. -/
def loadThemesData (cache : Option ThemesData) (fs : FileState) :
    Except LoadError (ThemesData × Option ThemesData) :=
  match cache with
  | some d => Except.ok (d, some d)
  | none =>
    match fs with
    | .missing => Except.error .notFound
    | .present _ .corrupt => Except.error .parseError
    | .present _ (.valid d) => Except.ok (d, some d)

/-- The `message` field of the parsed chat request body: absent, a string, or
a non-string JSON value (of which only JS truthiness matters). -/
inductive MessageField where
  | absent
  | str (s : String)
  | nonString (truthy : Bool)
deriving DecidableEq

/-- Validation of route.ts line 133, `!message || typeof message !== 'string'`:
an absent field and every non-string value are rejected, and so is the empty
string (the only falsy string). -/
def messageInvalid : MessageField → Bool
  | .absent => true
  | .str s => s = ""
  | .nonString _ => true

/-- One echoed source of the chat response (route.ts lines 184-190): the quote
text truncated to 200 characters with an ellipsis marker when longer. -/
structure ChatSource where
  id : String
  text : String
  source : String
  arrival_time : String
  mode : String
deriving DecidableEq

/-- Source projection of a retrieved document. -/
def chatSource (d : ChatDoc) : ChatSource :=
  { id := d.id
    text := d.text.take 200 ++ (if 200 < d.text.length then "..." else "")
    source := d.source
    arrival_time := d.arrival_time
    mode := d.mode }

/-- The chat endpoint's `buildContext` (route.ts lines 120-127). -/
def buildContext (docs : List ChatDoc) : String :=
  if docs.length = 0 then "No relevant survey responses found."
  else
    String.intercalate "\n\n"
      (docs.enum.map fun p =>
        "[Quote " ++ toString (p.1 + 1) ++ "] (Theme: " ++ p.2.source ++ "):\n\x22"
          ++ p.2.text ++ "\x22")

/-- The distinguishable outcomes of the chat `POST` handler: the 400
invalid-input rejection, the 500 missing-credential error, the 500 provider
failure, the 500 outer catch-all (reached by a loader or scorer throw), and
success with the generated response and echoed sources. -/
inductive ChatResponse where
  | badRequest
  | serverConfigError
  | upstreamError
  | internalError
  | success (response : String) (sources : List ChatSource)
deriving DecidableEq

/-- The chat endpoint's `POST` handler (route.ts lines 129-215) over an
explicit cache state.  The external generative-text call is abstracted as a
collaborator `provider` receiving the data it consumes (the loaded themes, the
grounding context string, the user message) and returning either a response
or a failure.  The body-parse step is abstracted as the already-extracted
`message` field.  Returns the HTTP outcome and the new module cache state. -/
def handleChatPOST (msg : MessageField) (cache : Option ThemesData)
    (fs : FileState) (apiKey : Option String)
    (provider : ThemesData → String → String → Except Unit String) :
    ChatResponse × Option ThemesData :=
  match msg with
  | .str s =>
    if s = "" then (.badRequest, cache)
    else
      match loadThemesData cache fs with
      | .error _ => (.internalError, cache)
      | .ok (themes, cache2) =>
        match findRelevantDocs s themes 5 with
        | .error _ => (.internalError, cache2)
        | .ok docs =>
          match apiKey with
          | none => (.serverConfigError, cache2)
          | some _ =>
            match provider themes (buildContext docs) s with
            | .error _ => (.upstreamError, cache2)
            | .ok resp => (.success resp (docs.map chatSource), cache2)
  | _ => (.badRequest, cache)

/-- Sample theme whose label matches cost-related queries; used by concrete
witnesses. -/
def sampleTheme1 : Theme :=
  { id := 0
    label := "Cost Concerns"
    count := 2
    pct := 40
    quotes := ["the cost is high", "permits cost too much"]
    segments :=
      { by_arrival_time := [("Early", 2)], by_mode := [("Drive", 2)], skip_rate := none } }

/-- Sample theme with an unrelated label; used by concrete witnesses. -/
def sampleTheme2 : Theme :=
  { id := 1
    label := "Shuttle Service"
    count := 3
    pct := 60
    quotes := ["more shuttles please"]
    segments :=
      { by_arrival_time := [("Late", 3)], by_mode := [("Bus", 3)], skip_rate := none } }

/-- Sample snapshot with two themes and three quotes. -/
def sampleData : ThemesData :=
  { metadata :=
      { generated_at := "2026-01-01", input_file := "themes.json", total_texts := 5,
        n_clusters := 2 }
    themes := [sampleTheme1, sampleTheme2] }

/-- A second, distinct sample snapshot; used to exhibit the chat loader's
missing cache invalidation. -/
def sampleData2 : ThemesData :=
  { metadata :=
      { generated_at := "2026-02-02", input_file := "themes.json", total_texts := 7,
        n_clusters := 1 }
    themes := [sampleTheme2] }

/-- A search result produced by `searchQuotes` on the sample data; used by a
concrete witness. -/
def sampleResult : SearchResult :=
  { quote := "the cost is high", theme := "Cost Concerns", themeId := 0, score := 22 }

example : searchScore "the cost is high" "cost" = 22 := by decide
example : scoreDocument "the cost is high" "cost" = Except.ok 3 := by decide
example : specClaimedScore "the cost is high" "cost" = 23 := by decide
example : bmCount "a-a-a".data "a-a".data = 1 := by decide
example : scoreDocument "(((" "(((" = Except.error () := by decide
example : searchScore "" "" = 20 := by decide

/-! Helper lemmas: closed forms of the scoring folds, success/value bridges for
the `Except`-valued pipeline, and properties of the stable sort. -/

theorem isSubstr_nil (hay : List Char) : isSubstr [] hay = true := by
  cases hay <;> simp [isSubstr, List.isPrefixOf]

theorem foldl_if_add {α : Type} (p : α → Bool) (f : α → Nat) :
    ∀ (l : List α) (b : Nat),
      l.foldl (fun s t => if p t then s + f t else s) b
        = b + ((l.filter p).map f).sum
  | [], b => by simp
  | x :: l, b => by
    by_cases h : p x <;>
      simp [h, foldl_if_add p f l, Nat.add_assoc]

theorem sum_map_const_two {α : Type} : ∀ l : List α, (l.map fun _ => 2).sum = 2 * l.length
  | [] => by simp
  | x :: l => by simp [sum_map_const_two l]; omega

theorem except_bind_ok {ε α β : Type} (a : α) (f : α → Except ε β) :
    (Except.ok a >>= f) = f a := rfl

theorem except_bind_error {ε α β : Type} (e : ε) (f : α → Except ε β) :
    ((Except.error e : Except ε α) >>= f) = Except.error e := rfl

theorem except_pure_eq {ε α : Type} (a : α) : (pure a : Except ε α) = Except.ok a := rfl

theorem foldlM_except_ok_of_mem {α : Type} (g : Nat → α → Except Unit Nat)
    (gv : Nat → α → Nat) :
    ∀ (l : List α), (∀ x ∈ l, ∀ b, g b x = Except.ok (gv b x)) →
      ∀ b, l.foldlM g b = Except.ok (l.foldl gv b)
  | [], _, b => by simp [List.foldlM, except_pure_eq]
  | x :: l, h, b => by
    have hx := h x (by simp)
    simp only [List.foldlM, List.foldl, hx b, except_bind_ok]
    exact foldlM_except_ok_of_mem g gv l (fun y hy => h y (by simp [hy])) (gv b x)

theorem foldlM_except_ok_imp {α : Type} (g : Nat → α → Except Unit Nat)
    (gv : Nat → α → Nat)
    (h : ∀ b x r, g b x = Except.ok r → r = gv b x) :
    ∀ (l : List α) (b r), l.foldlM g b = Except.ok r → r = l.foldl gv b
  | [], b, r => by
    intro he
    simp [List.foldlM, except_pure_eq] at he
    exact he.symm
  | x :: l, b, r => by
    intro he
    simp only [List.foldlM] at he
    cases hx : g b x with
    | error e => rw [hx, except_bind_error] at he; exact absurd he (by simp)
    | ok v =>
      rw [hx, except_bind_ok] at he
      have hv := h b x v hx
      subst hv
      simpa [List.foldl] using foldlM_except_ok_imp g gv h l (gv b x) r he

theorem scoreDocument_ok_val (text query : String) (r : Nat)
    (h : scoreDocument text query = Except.ok r) : r = scoreDocumentVal text query := by
  refine foldlM_except_ok_imp _ _ ?_ (queryTerms query) 0 r h
  intro b x r' hx
  by_cases hs : isSubstr x (lowerL text.data) = true
  · by_cases hl : literalTerm x = true
    · simp [hs, hl] at hx
      simp [hs, ← hx]
    · simp [hs, hl] at hx
  · simp [hs] at hx
    simp [hs, ← hx]

theorem scoreDocument_lit (text query : String) (h : litQuery query = true) :
    scoreDocument text query = Except.ok (scoreDocumentVal text query) := by
  refine foldlM_except_ok_of_mem _ _ (queryTerms query) ?_ 0
  intro x hx b
  have hlx : literalTerm x = true := by
    have := (List.all_eq_true.mp h) x hx
    simpa using this
  by_cases hs : isSubstr x (lowerL text.data) = true <;> simp [hs, hlx]

theorem mapM_except_ok_imp {α β : Type} (g : α → Except Unit β) (gv : α → β)
    (h : ∀ x y, g x = Except.ok y → y = gv x) :
    ∀ (l : List α) (r : List β), l.mapM g = Except.ok r → r = l.map gv
  | [], r => by
    intro he
    rw [List.mapM_nil] at he
    rw [except_pure_eq] at he
    simpa using he.symm
  | x :: l, r => by
    intro he
    rw [List.mapM_cons] at he
    cases hx : g x with
    | error e => rw [hx, except_bind_error] at he; exact absurd he (by simp)
    | ok v =>
      rw [hx, except_bind_ok] at he
      cases hl : l.mapM g with
      | error e => rw [hl, except_bind_error] at he; exact absurd he (by simp)
      | ok vs =>
        rw [hl, except_bind_ok, except_pure_eq] at he
        have h1 := h x v hx
        have h2 := mapM_except_ok_imp g gv h l vs hl
        simp only [Except.ok.injEq] at he
        simp [List.map, h1, h2, ← he]

theorem mapM_except_ok_of_mem {α β : Type} (g : α → Except Unit β) (gv : α → β) :
    ∀ (l : List α), (∀ x ∈ l, g x = Except.ok (gv x)) →
      l.mapM g = Except.ok (l.map gv)
  | [], _ => by rw [List.mapM_nil]; rfl
  | x :: l, h => by
    rw [List.mapM_cons, h x (by simp), except_bind_ok,
      mapM_except_ok_of_mem g gv l (fun y hy => h y (by simp [hy])), except_bind_ok]
    rfl

theorem chatQuoteDoc_ok (query : String) (theme : Theme) (i : Nat) (quote : String)
    (doc : ChatDoc) (h : chatQuoteDoc query theme i quote = Except.ok doc) :
    doc = chatQuoteDocVal query theme i quote := by
  unfold chatQuoteDoc at h
  cases h1 : scoreDocument quote query with
  | error e => rw [h1, except_bind_error] at h; exact absurd h (by simp)
  | ok s =>
    rw [h1, except_bind_ok] at h
    cases h2 : scoreDocument theme.label query with
    | error e => rw [h2, except_bind_error] at h; exact absurd h (by simp)
    | ok ls =>
      rw [h2, except_bind_ok] at h
      simp only [Except.ok.injEq] at h
      rw [← h]
      simp [chatQuoteDocVal, scoreDocument_ok_val _ _ _ h1, scoreDocument_ok_val _ _ _ h2]

theorem chatQuoteDoc_lit (query : String) (theme : Theme) (i : Nat) (quote : String)
    (h : litQuery query = true) :
    chatQuoteDoc query theme i quote = Except.ok (chatQuoteDocVal query theme i quote) := by
  unfold chatQuoteDoc
  rw [scoreDocument_lit quote query h, except_bind_ok,
    scoreDocument_lit theme.label query h, except_bind_ok]
  rfl

theorem chatCandidates_ok_val (query : String) (d : ThemesData) (r : List ChatDoc)
    (h : chatCandidates query d = Except.ok r) : r = chatCandidatesVal query d := by
  unfold chatCandidates at h
  cases hm : d.themes.mapM
      (fun theme => theme.quotes.enum.mapM fun p => chatQuoteDoc query theme p.1 p.2) with
  | error e => rw [hm, except_bind_error] at h; exact absurd h (by simp)
  | ok per =>
    rw [hm, except_bind_ok] at h
    simp only [Except.ok.injEq] at h
    have hper :
        per = d.themes.map
          (fun theme => theme.quotes.enum.map fun p => chatQuoteDocVal query theme p.1 p.2) := by
      refine mapM_except_ok_imp _ _ ?_ d.themes per hm
      intro t y hy
      refine mapM_except_ok_imp _ _ ?_ t.quotes.enum y hy
      intro p doc hdoc
      exact chatQuoteDoc_ok query t p.1 p.2 doc hdoc
    rw [← h, hper, chatCandidatesVal, List.flatMap_def]

theorem chatCandidates_lit (query : String) (d : ThemesData) (h : litQuery query = true) :
    chatCandidates query d = Except.ok (chatCandidatesVal query d) := by
  unfold chatCandidates
  rw [mapM_except_ok_of_mem
      (fun theme => theme.quotes.enum.mapM fun p => chatQuoteDoc query theme p.1 p.2)
      (fun theme => theme.quotes.enum.map fun p => chatQuoteDocVal query theme p.1 p.2)
      d.themes
      (fun t _ => mapM_except_ok_of_mem _ _ t.quotes.enum
        (fun p _ => chatQuoteDoc_lit query t p.1 p.2 h)),
    except_bind_ok, chatCandidatesVal, List.flatMap_def]

theorem findRelevantDocs_ok_val (query : String) (d : ThemesData) (k : Nat)
    (l : List ChatDoc) (h : findRelevantDocs query d k = Except.ok l) :
    l = findRelevantDocsVal query d k := by
  unfold findRelevantDocs at h
  cases hc : chatCandidates query d with
  | error e => rw [hc, except_bind_error] at h; exact absurd h (by simp)
  | ok docs =>
    rw [hc, except_bind_ok] at h
    simp only [Except.ok.injEq] at h
    rw [← h, chatCandidates_ok_val query d docs hc]
    rfl

theorem findRelevantDocs_lit (query : String) (d : ThemesData) (k : Nat)
    (h : litQuery query = true) :
    findRelevantDocs query d k = Except.ok (findRelevantDocsVal query d k) := by
  unfold findRelevantDocs
  rw [chatCandidates_lit query d h, except_bind_ok]
  rfl

theorem mem_insertDesc {α : Type} (key : α → Nat) (x : α) (a : α) :
    ∀ l : List α, a ∈ insertDesc key x l ↔ a = x ∨ a ∈ l
  | [] => by simp [insertDesc]
  | y :: ys => by
    by_cases h : key x < key y
    · simp [insertDesc, h, mem_insertDesc key x a ys]
      tauto
    · simp [insertDesc, h]

theorem mem_sortByScoreDesc {α : Type} (key : α → Nat) (a : α) :
    ∀ l : List α, a ∈ sortByScoreDesc key l ↔ a ∈ l
  | [] => by simp [sortByScoreDesc]
  | x :: xs => by
    simp [sortByScoreDesc, mem_insertDesc, mem_sortByScoreDesc key a xs]

theorem length_insertDesc {α : Type} (key : α → Nat) (x : α) :
    ∀ l : List α, (insertDesc key x l).length = l.length + 1
  | [] => rfl
  | y :: ys => by
    by_cases h : key x < key y <;> simp [insertDesc, h, length_insertDesc key x ys]

theorem length_sortByScoreDesc {α : Type} (key : α → Nat) :
    ∀ l : List α, (sortByScoreDesc key l).length = l.length
  | [] => rfl
  | x :: xs => by
    simp [sortByScoreDesc, length_insertDesc, length_sortByScoreDesc key xs]

theorem pairwise_insertDesc {α : Type} (key : α → Nat) (x : α) :
    ∀ l : List α, l.Pairwise (fun a b => key b ≤ key a) →
      (insertDesc key x l).Pairwise (fun a b => key b ≤ key a)
  | [], _ => by simp [insertDesc]
  | y :: ys, h => by
    rcases List.pairwise_cons.mp h with ⟨hy, hys⟩
    by_cases hk : key x < key y
    · rw [insertDesc, if_pos hk]
      refine List.pairwise_cons.mpr ⟨?_, pairwise_insertDesc key x ys hys⟩
      intro b hb
      rcases (mem_insertDesc key x b ys).mp hb with hb | hb
      · subst hb; omega
      · exact hy b hb
    · rw [insertDesc, if_neg hk]
      refine List.pairwise_cons.mpr ⟨?_, h⟩
      intro b hb
      rcases List.mem_cons.mp hb with hb | hb
      · subst hb; omega
      · have := hy b hb; omega

theorem pairwise_sortByScoreDesc {α : Type} (key : α → Nat) :
    ∀ l : List α, (sortByScoreDesc key l).Pairwise (fun a b => key b ≤ key a)
  | [] => by simp [sortByScoreDesc]
  | x :: xs =>
    pairwise_insertDesc key x (sortByScoreDesc key xs) (pairwise_sortByScoreDesc key xs)

theorem filter_insertDesc {α : Type} (key : α → Nat) (x : α) (s : Nat) :
    ∀ l : List α, l.Pairwise (fun a b => key b ≤ key a) →
      (insertDesc key x l).filter (fun a => decide (key a = s))
        = if key x = s then x :: l.filter (fun a => decide (key a = s))
          else l.filter (fun a => decide (key a = s))
  | [], _ => by
    by_cases h : key x = s <;> simp [insertDesc, h]
  | y :: ys, hp => by
    rcases List.pairwise_cons.mp hp with ⟨hy, hys⟩
    by_cases hk : key x < key y
    · rw [insertDesc, if_pos hk]
      by_cases hxs : key x = s
      · have hys2 : ¬ key y = s := by omega
        simp [List.filter_cons, hys2, hxs, filter_insertDesc key x s ys hys]
      · by_cases hyss : key y = s <;>
          simp [List.filter_cons, hxs, hyss, filter_insertDesc key x s ys hys]
    · rw [insertDesc, if_neg hk]
      by_cases hxs : key x = s <;> simp [List.filter_cons, hxs]

theorem filter_sortByScoreDesc {α : Type} (key : α → Nat) (s : Nat) :
    ∀ l : List α, (sortByScoreDesc key l).filter (fun a => decide (key a = s))
      = l.filter (fun a => decide (key a = s))
  | [] => rfl
  | x :: xs => by
    rw [sortByScoreDesc,
      filter_insertDesc key x s (sortByScoreDesc key xs) (pairwise_sortByScoreDesc key xs),
      filter_sortByScoreDesc key s xs]
    by_cases h : key x = s <;> simp [List.filter_cons, h]

theorem foldl_if_add2 {α : Type} (p : α → Bool) (g : α → Nat) :
    ∀ (l : List α) (b : Nat),
      l.foldl (fun s t => if p t then s + 2 + g t else s) b
        = b + ((l.filter p).map fun t => 2 + g t).sum
  | [], b => by simp
  | x :: l, b => by
    by_cases h : p x
    · simp [h, foldl_if_add2 p g l]
      omega
    · simp [h, foldl_if_add2 p g l]

theorem searchCandidates_score_pos (themes : List Theme) (query : String) :
    ∀ r ∈ searchCandidates themes query, 0 < r.score := by
  intro r hr
  simp only [searchCandidates, List.mem_flatMap, List.mem_filterMap,
    Option.ite_none_right_eq_some, Option.some.injEq] at hr
  obtain ⟨t, _, q, _, hpos, hr⟩ := hr
  rw [← hr]
  exact hpos

theorem searchCandidates_provenance (themes : List Theme) (query : String) :
    ∀ r ∈ searchCandidates themes query,
      ∃ t, t ∈ themes ∧ r.quote ∈ t.quotes ∧ r.theme = t.label ∧ r.themeId = t.id := by
  intro r hr
  simp only [searchCandidates, List.mem_flatMap, List.mem_filterMap,
    Option.ite_none_right_eq_some, Option.some.injEq] at hr
  obtain ⟨t, ht, q, hq, _, hr⟩ := hr
  exact ⟨t, ht, by rw [← hr]; exact hq, by rw [← hr], by rw [← hr]⟩

theorem mem_chatCandidatesVal (query : String) (d : ThemesData) (doc : ChatDoc)
    (h : doc ∈ chatCandidatesVal query d) :
    ∃ t, t ∈ d.themes ∧ ∃ i q, (i, q) ∈ t.quotes.enum
      ∧ doc = chatQuoteDocVal query t i q := by
  simp only [chatCandidatesVal, List.mem_flatMap, List.mem_map] at h
  obtain ⟨t, ht, p, hp, hdoc⟩ := h
  exact ⟨t, ht, p.1, p.2, hp, hdoc.symm⟩

theorem length_chatCandidatesVal (query : String) (d : ThemesData) :
    (chatCandidatesVal query d).length = totalQuotes d := by
  rw [chatCandidatesVal, totalQuotes, List.length_flatMap]
  congr 1
  refine List.map_congr_left ?_
  intro t _
  simp [List.enum_length]

/-! Claim theorems. -/

/-- Claim C1 (counterexample).  The claim asserts that both endpoints' scorers
compute the same formula: 10 for a full-query substring plus, per surviving
substring term, 1 plus 0.5 per word-boundary occurrence (`specClaimedScore`,
in half-points).  At text `"cost"` and query `"cost"` that formula gives 11.5
points (23 half-points), but the search scorer gives 11 points (22: it has the
substring bonus and the per-term 1, yet no word-boundary component), and the
chat scorer gives 1.5 points (`Except.ok 3`: it has the per-term and boundary
components, yet no full-query bonus), so neither scorer computes the claimed
formula. -/
theorem scorers_differ_from_claimed_formula :
    searchScore "cost" "cost" ≠ specClaimedScore "cost" "cost"
      ∧ scoreDocument "cost" "cost" ≠ Except.ok (specClaimedScore "cost" "cost") := by
  decide

/-- Claim C1 (amended).  The two endpoints use different formulas.  The search
scorer equals 10 points (20) when the full lowercased query is a substring of
the lowercased text plus 1 point (2) per surviving substring term, with no
word-boundary component; the chat scorer (on inputs where it does not throw)
equals the sum, over surviving substring terms, of 1 point (2) plus 0.5 points
(1) per word-boundary occurrence, with no full-query bonus. -/
theorem per_endpoint_scorer_formulas :
    ∀ quote query : String,
      searchScore quote query
          = (if isSubstr (lowerL query.data) (lowerL quote.data) then 20 else 0)
            + 2 * ((queryTerms query).filter fun t => isSubstr t (lowerL quote.data)).length
      ∧ scoreDocumentVal quote query
          = (((queryTerms query).filter fun t => isSubstr t (lowerL quote.data)).map
              fun t => 2 + bmCount (lowerL quote.data) t).sum := by
  intro quote query
  constructor
  · show (queryTerms query).foldl
        (fun score term => if isSubstr term (lowerL quote.data) then score + 2 else score)
        (if isSubstr (lowerL query.data) (lowerL quote.data) then 20 else 0) = _
    rw [foldl_if_add (fun t => isSubstr t (lowerL quote.data)) (fun _ => 2),
      sum_map_const_two]
  · show (queryTerms query).foldl
        (fun score word =>
          if isSubstr word (lowerL quote.data) then score + 2 + bmCount (lowerL quote.data) word
          else score) 0 = _
    rw [foldl_if_add2 (fun t => isSubstr t (lowerL quote.data))
      (fun t => bmCount (lowerL quote.data) t)]
    simp

/-- Claim C5 (counterexample).  The claim asserts the scorers are total and
never raise.  The chat scorer interpolates each query term into
`new RegExp("\\b" + word + "\\b", "gi")`; at text `"((("` and query `"((("`
the term survives the length filter, passes the substring test, and the regex
construction throws a `SyntaxError` (unmatched group), modelled as
`Except.error`. -/
theorem chat_scorer_throws_on_metachar_query :
    scoreDocument "(((" "(((" = Except.error () := by decide

/-- Claim C5 (amended).  The evidence-search scorer and both rankers are total
by construction (they build no regex); the chat scorer is total on every query
all of whose surviving terms are free of regex metacharacters, and then the
whole chat retrieval pipeline succeeds with the no-throw values. -/
theorem literal_query_scoring_total :
    (∀ text query : String, litQuery query = true →
        scoreDocument text query = Except.ok (scoreDocumentVal text query))
    ∧ ∀ query d k, litQuery query = true →
        findRelevantDocs query d k = Except.ok (findRelevantDocsVal query d k) :=
  ⟨fun text query h => scoreDocument_lit text query h,
    fun query d k h => findRelevantDocs_lit query d k h⟩

/-- Claim C5 (witness for the amended theorem), at the metacharacter-free
query `"cost"` and the sample snapshot. -/
theorem literal_query_scoring_total_w :
    findRelevantDocs "cost" sampleData 5
      = Except.ok (findRelevantDocsVal "cost" sampleData 5) :=
  literal_query_scoring_total.2 "cost" sampleData 5 (by decide)

/-- Claim C7 (counterexample).  The claim defines the score as 0 when both the
text and the query are empty; in the source, `"".includes("")` is true, so the
search scorer's substring bonus fires and `score("", "")` is 10 points
(20 half-points), not 0. -/
theorem empty_text_empty_query_score_not_zero :
    searchScore "" "" = 20 ∧ searchScore "" "" ≠ 0 := by decide

/-- Claim C7 (amended).  Scoring any text against the empty query does not
throw and equals the substring-bonus term alone: the empty query has no
surviving terms, so the chat scorer (which has no substring bonus) returns 0,
and the search scorer returns exactly its substring bonus of 10 points (20) —
for every text, including the empty one, because the empty string is a
substring of everything. -/
theorem empty_query_scores :
    ∀ text : String, scoreDocument text "" = Except.ok 0 ∧ searchScore text "" = 20 := by
  intro text
  have hterms : queryTerms "" = [] := by decide
  have h0 : lowerL "".data = [] := rfl
  constructor
  · simp only [scoreDocument, hterms, List.foldlM]
    rfl
  · simp only [searchScore, hterms, List.foldl]
    simp [h0, isSubstr_nil]

/-- Claim C2 (counterexample).  The claim asserts both endpoints' loaders fail
open, returning an empty `ThemesData` when the backing file is missing; the
chat endpoint's `loadThemesData` instead throws
`Error('Themes data not found...')` when the file is missing and the cache is
cold, so the error propagates to the surrounding handler rather than an empty
dataset being returned. -/
theorem chat_loader_throws_on_missing_file :
    loadThemesData none FileState.missing = Except.error LoadError.notFound := rfl

/-- Claim C2 (amended).  Fail-open holds for the evidence endpoint's
`loadThemes` only: a missing file always yields the empty `ThemesData` stamped
with the current time (cache untouched), and an unparsable file yields the same
whenever the read is actually attempted (cold cache or changed mtime).  The
chat endpoint's `loadThemesData` instead throws on a missing file and on an
unparsable file when its cache is cold. -/
theorem loader_fail_open_policies :
    (∀ st now, loadThemes st FileState.missing now = (emptyThemesData now, st))
    ∧ (∀ st now mtime, st.cachedThemes = none ∨ mtime ≠ st.themesLastModified →
        loadThemes st (FileState.present mtime FileContent.corrupt) now
          = (emptyThemesData now, st))
    ∧ loadThemesData none FileState.missing = Except.error LoadError.notFound
    ∧ ∀ mtime, loadThemesData none (FileState.present mtime FileContent.corrupt)
        = Except.error LoadError.parseError := by
  refine ⟨fun st now => rfl, ?_, rfl, fun mtime => rfl⟩
  intro st now mtime h
  cases hc : st.cachedThemes with
  | none => simp [loadThemes, hc]
  | some d =>
    rcases h with h | h
    · rw [hc] at h; cases h
    · simp [loadThemes, hc, h]

/-- Claim C2 (witness for the amended theorem): a cold-cache load of an
unparsable file produces the empty dataset and leaves the cache untouched. -/
theorem loader_fail_open_policies_w :
    loadThemes ⟨none, 0⟩ (FileState.present 1 FileContent.corrupt) "now"
      = (emptyThemesData "now", ⟨none, 0⟩) :=
  loader_fail_open_policies.2.1 ⟨none, 0⟩ "now" 1 (Or.inl rfl)

/-- Claim C4 (counterexample).  The claim asserts that for both endpoints a
changed modification time makes the next load reparse and return the new
content.  The chat endpoint's `loadThemesData` never stats the file: with
`sampleData` cached it returns `sampleData` unchanged even though the file now
holds the different snapshot `sampleData2` (under any mtime — 99 here). -/
theorem chat_loader_ignores_file_change :
    loadThemesData (some sampleData) (FileState.present 99 (FileContent.valid sampleData2))
        = Except.ok (sampleData, some sampleData)
      ∧ sampleData ≠ sampleData2 :=
  ⟨rfl, fun h => by
    simpa [sampleData, sampleData2] using congrArg (fun x => x.metadata.total_texts) h⟩

/-- Claim C4 (amended).  The mtime-based cache policy holds for the evidence
endpoint's `loadThemes`: with a populated cache and an unchanged modification
time it returns the exact cached snapshot with the cache state untouched, and
does not reparse (the result is independent of the file's content); with a
changed modification time and parsable content it returns the new content and
replaces the cache.  The chat endpoint's `loadThemesData` instead returns its
cached snapshot unconditionally once populated and never reloads. -/
theorem mtime_cache_policies :
    (∀ st d now content, st.cachedThemes = some d →
        loadThemes st (FileState.present st.themesLastModified content) now = (d, st))
    ∧ (∀ st now mtime d2, mtime ≠ st.themesLastModified →
        loadThemes st (FileState.present mtime (FileContent.valid d2)) now
          = (d2, ⟨some d2, mtime⟩))
    ∧ ∀ d fs, loadThemesData (some d) fs = Except.ok (d, some d) := by
  refine ⟨?_, ?_, fun d fs => rfl⟩
  · intro st d now content h
    simp [loadThemes, h]
  · intro st now mtime d2 h
    cases hc : st.cachedThemes <;> simp [loadThemes, hc, h]

/-- Claim C4 (witness for the amended theorem): a cache hit at the stored
modification time returns the cached snapshot unchanged, even though the file
content on disk is unparsable (no reparse happens). -/
theorem mtime_cache_policies_w :
    loadThemes ⟨some sampleData, 3⟩ (FileState.present 3 FileContent.corrupt) "now"
      = (sampleData, ⟨some sampleData, 3⟩) :=
  mtime_cache_policies.1 ⟨some sampleData, 3⟩ sampleData "now" FileContent.corrupt rfl

/-- Claim C9.  A missing message, the empty-string message, and every
non-string message are rejected with the 400 invalid-input response before the
loader, the scorer or the ranker run: the handler's result is the bad-request
response with the cache state unchanged, for every file state, cache state,
credential state and provider behavior. -/
theorem invalid_chat_message_rejected :
    ∀ msg cache fs apiKey provider, messageInvalid msg = true →
      handleChatPOST msg cache fs apiKey provider = (ChatResponse.badRequest, cache) := by
  intro msg cache fs apiKey provider h
  cases msg with
  | absent => rfl
  | nonString t => rfl
  | str s =>
    have hs : s = "" := by simpa [messageInvalid] using h
    subst hs
    simp [handleChatPOST]

/-- Claim C9 (witness): the blank message on a cold cache with a missing file
and no credential. -/
theorem invalid_chat_message_rejected_w :
    handleChatPOST (MessageField.str "") none FileState.missing none
        (fun _ _ _ => Except.error ())
      = (ChatResponse.badRequest, none) :=
  invalid_chat_message_rejected (MessageField.str "") none FileState.missing none
    (fun _ _ _ => Except.error ()) (by decide)

/-- Claim C3.  Search mode returns only entries with strictly positive score
and at most 20 of them; chat-context mode applies no score filter and, when it
succeeds, returns exactly `min(5, totalQuotes)` documents (so zero-score
documents are returned too — the witness below retrieves documents for a query
matching nothing). -/
theorem search_filters_chat_truncates :
    (∀ themes query, (∀ r ∈ searchQuotes themes query, 0 < r.score)
        ∧ (searchQuotes themes query).length ≤ 20)
    ∧ ∀ query d l, findRelevantDocs query d 5 = Except.ok l →
        l.length = min 5 (totalQuotes d) := by
  constructor
  · intro themes query
    constructor
    · intro r hr
      rw [searchQuotes] at hr
      have h1 := List.mem_of_mem_take hr
      rw [searchRanked] at h1
      exact searchCandidates_score_pos themes query r
        ((mem_sortByScoreDesc _ r _).mp h1)
    · rw [searchQuotes, List.length_take]
      exact min_le_left _ _
  · intro query d l h
    rw [findRelevantDocs_ok_val query d 5 l h, findRelevantDocsVal, List.length_take,
      chatRankedVal, length_sortByScoreDesc, length_chatCandidatesVal]

/-- Claim C3 (witness): the query `"xyz"` matches no quote of the sample
snapshot (every score is 0), yet chat-context mode still returns
`min(5, 3) = 3` documents. -/
theorem search_filters_chat_truncates_w :
    (findRelevantDocsVal "xyz" sampleData 5).length = min 5 (totalQuotes sampleData) :=
  search_filters_chat_truncates.2 "xyz" sampleData
    (findRelevantDocsVal "xyz" sampleData 5) (by decide)

/-- Claim C6.  Both rankings are deterministic (the embedding is a pure
function of the snapshot and query, so two runs on identical input are
identical by reflexivity), the produced sequences are descending in score, and
the ranking is tie-stable: for every score value, the equal-score entries of
the ranked sequence are exactly the equal-score entries of the flattened
theme-then-quote candidate sequence, in the same order. -/
theorem ranking_sorted_and_tie_stable :
    (∀ themes query, (searchQuotes themes query).Pairwise fun a b => b.score ≤ a.score)
    ∧ (∀ themes query (s : Nat),
        (searchRanked themes query).filter (fun r : SearchResult => decide (r.score = s))
          = (searchCandidates themes query).filter fun r : SearchResult => decide (r.score = s))
    ∧ (∀ query d k l, findRelevantDocs query d k = Except.ok l →
        l.Pairwise fun a b => b.score ≤ a.score)
    ∧ ∀ query d (s : Nat),
        (chatRankedVal query d).filter (fun c : ChatDoc => decide (c.score = s))
          = (chatCandidatesVal query d).filter fun c : ChatDoc => decide (c.score = s) := by
  refine ⟨?_, ?_, ?_, ?_⟩
  · intro themes query
    rw [searchQuotes, searchRanked]
    exact List.Pairwise.sublist (List.take_sublist _ _)
      (pairwise_sortByScoreDesc (fun r : SearchResult => r.score) _)
  · intro themes query s
    rw [searchRanked]
    exact filter_sortByScoreDesc (fun r : SearchResult => r.score) s _
  · intro query d k l h
    rw [findRelevantDocs_ok_val query d k l h, findRelevantDocsVal, chatRankedVal]
    exact List.Pairwise.sublist (List.take_sublist _ _)
      (pairwise_sortByScoreDesc (fun c : ChatDoc => c.score) _)
  · intro query d s
    rw [chatRankedVal]
    exact filter_sortByScoreDesc (fun c : ChatDoc => c.score) s _

/-- Claim C6 (witness): the retrieved documents for `"cost"` on the sample
snapshot are descending in score. -/
theorem ranking_sorted_and_tie_stable_w :
    (findRelevantDocsVal "cost" sampleData 5).Pairwise fun a b => b.score ≤ a.score :=
  ranking_sorted_and_tie_stable.2.2.1 "cost" sampleData 5
    (findRelevantDocsVal "cost" sampleData 5) (by decide)

/-- Claim C8.  In chat-context mode every candidate document's score is
`score(quote, query) + 2 * score(theme.label, query)` (the label boost is the
same for every quote of the theme, since it does not depend on the quote or
its index), and consequently of two quotes with equal own scores, the one
under the theme with the higher-scoring label gets the strictly higher final
score. -/
theorem chat_theme_label_boost :
    (∀ query theme i quote s ls,
        scoreDocument quote query = Except.ok s →
        scoreDocument theme.label query = Except.ok ls →
        chatQuoteDoc query theme i quote
            = Except.ok (chatQuoteDocVal query theme i quote)
          ∧ (chatQuoteDocVal query theme i quote).score = s + 2 * ls)
    ∧ ∀ query t1 t2 i1 i2 q1 q2,
        scoreDocumentVal q1 query = scoreDocumentVal q2 query →
        scoreDocumentVal t2.label query < scoreDocumentVal t1.label query →
        (chatQuoteDocVal query t2 i2 q2).score < (chatQuoteDocVal query t1 i1 q1).score := by
  constructor
  · intro query theme i quote s ls h1 h2
    have hv1 := scoreDocument_ok_val _ _ _ h1
    have hv2 := scoreDocument_ok_val _ _ _ h2
    constructor
    · unfold chatQuoteDoc
      rw [h1, except_bind_ok, h2, except_bind_ok, hv1, hv2]
      rfl
    · show scoreDocumentVal quote query + scoreDocumentVal theme.label query * 2
          = s + 2 * ls
      rw [← hv1, ← hv2]
      omega
  · intro query t1 t2 i1 i2 q1 q2 hq hl
    show scoreDocumentVal q2 query + scoreDocumentVal t2.label query * 2
        < scoreDocumentVal q1 query + scoreDocumentVal t1.label query * 2
    omega

/-- Claim C8 (witness): a quote of the sample theme labeled "Cost Concerns"
scored against the query `"cost"`. -/
theorem chat_theme_label_boost_w :
    chatQuoteDoc "cost" sampleTheme1 0 "the cost is high"
        = Except.ok (chatQuoteDocVal "cost" sampleTheme1 0 "the cost is high")
      ∧ (chatQuoteDocVal "cost" sampleTheme1 0 "the cost is high").score
        = scoreDocumentVal "the cost is high" "cost"
          + 2 * scoreDocumentVal sampleTheme1.label "cost" :=
  chat_theme_label_boost.1 "cost" sampleTheme1 0 "the cost is high"
    (scoreDocumentVal "the cost is high" "cost")
    (scoreDocumentVal sampleTheme1.label "cost") (by decide) (by decide)

/-- Claim C10.  Every search entry carries verbatim a quote of some theme of
the snapshot together with that theme's label and id, and every retrieved chat
document carries verbatim a quote of some theme together with that theme's
label; neither routine synthesizes or alters quote text. -/
theorem results_carry_verbatim_quotes :
    (∀ themes query r, r ∈ searchQuotes themes query →
        ∃ t, t ∈ themes ∧ r.quote ∈ t.quotes ∧ r.theme = t.label ∧ r.themeId = t.id)
    ∧ ∀ query d k l doc, findRelevantDocs query d k = Except.ok l → doc ∈ l →
        ∃ t, t ∈ d.themes ∧ doc.text ∈ t.quotes ∧ doc.source = t.label := by
  constructor
  · intro themes query r hr
    rw [searchQuotes] at hr
    have h1 := List.mem_of_mem_take hr
    rw [searchRanked] at h1
    exact searchCandidates_provenance themes query r
      ((mem_sortByScoreDesc _ r _).mp h1)
  · intro query d k l doc h hd
    rw [findRelevantDocs_ok_val query d k l h, findRelevantDocsVal, chatRankedVal] at hd
    have h1 := List.mem_of_mem_take hd
    have h2 := (mem_sortByScoreDesc _ doc _).mp h1
    obtain ⟨t, ht, i, q, hiq, hdoc⟩ := mem_chatCandidatesVal query d doc h2
    refine ⟨t, ht, ?_, ?_⟩
    · obtain ⟨hlt, hq⟩ := List.mem_enum hiq
      rw [hdoc]
      show q ∈ t.quotes
      rw [hq]
      exact List.getElem_mem hlt
    · rw [hdoc]
      rfl

/-- Claim C10 (witness): the top search result for `"cost"` on the sample
snapshot is a verbatim quote of the "Cost Concerns" theme. -/
theorem results_carry_verbatim_quotes_w :
    ∃ t, t ∈ sampleData.themes ∧ sampleResult.quote ∈ t.quotes
      ∧ sampleResult.theme = t.label ∧ sampleResult.themeId = t.id :=
  results_carry_verbatim_quotes.1 sampleData.themes "cost" sampleResult (by decide)
